import Mathlib

/-!
Verification development for the `faster-beamer` incremental slide compiler
(`src/process_file.rs`, `src/parsing.rs`).  The pure data flow of
`process_file` is embedded shallowly: strings are Lean `String`s (character
lists where fine-grained reasoning is needed), and every effectful
collaborator (filesystem, external LaTeX compiler, `pdfunite`, symlinking)
is abstracted as an environment record of outcomes, so that `process_file`
becomes a pure function from an environment and the previous frame history
to a run outcome.
-/

/-- Modelled from the spec: the content fingerprinter (§4.2) is the external
`md5` crate collaborator (`md5::compute`), not code of this repository.  It
is modelled as a pure, deterministic digest function rendered in lowercase
hex, which is the only property the pipeline relies on. -/
def md5Hex (s : String) : String :=
  (Nat.toDigits 16 (s.data.foldl (fun a c => (a * 131 + c.toNat) % (2 ^ 128)) 7)).asString

/-- Error taxonomy of `process_file.rs` (`enum FasterBeamerError`). -/
inductive FasterBeamerError where
  | InputFileNotExistent
  | IoError
  | CompileError
  | PdfUniteError
  deriving DecidableEq, Repr

/-- Result of one `process_file` invocation.  Rust `Ok(())`/`Err(e)` returns
are `ok`/`err e`; a Rust panic (an `expect`/`unwrap` firing, which unwinds
without returning) is `panicked`. -/
inductive RunResult where
  | ok
  | err (e : FasterBeamerError)
  | panicked
  deriving DecidableEq, Repr

/-- Per-compile-unit outcome of the parallel build loop
(`generated_documents.par_iter().for_each`, process_file.rs:261-304):
the cached artifact already existed, the unit was compiled, the compiler
failed on it, or the temporary `.tex` write failed so the compiler was
never invoked for it. -/
inductive BuildResult where
  | cacheHit
  | compiled
  | failed
  | writeSkipped
  deriving DecidableEq, Repr

/-- Boolean prefix test on character lists (`List.isPrefixOf`). -/
def isPfx (p s : List Char) : Bool :=
  p.isPrefixOf s

/-- `occursAtB p s q` holds when pattern `p` occurs in `s` at position `q`. -/
def occursAtB (p s : List Char) (q : Nat) : Bool :=
  isPfx p (s.drop q)

/-- Boolean substring test: `p` occurs somewhere in `w`. -/
def isSubB (p w : List Char) : Bool :=
  (List.range (w.length + 1)).any fun k => isPfx p (w.drop k)

/-- Boolean suffix test on character lists. -/
def isSfx (p s : List Char) : Bool :=
  s.drop (s.length - p.length) == p

/-- `overlapsB p w` holds when an occurrence of `p` could intersect an
occurrence of `w` without coinciding with disjoint text around it: `p`
inside `w`, `w` inside `p`, a nonempty suffix of `w` starting `p`, or a
nonempty prefix of `w` ending `p`. -/
def overlapsB (p w : List Char) : Bool :=
  isSubB p w || isSubB w p ||
    ((List.range w.length).any fun k => isPfx (w.drop k) p) ||
    ((List.range w.length).any fun k => isSfx (w.take (k + 1)) p)

/-- Rust `str::replacen(pat, rep, 1)` on character lists: replace the first
occurrence of `p` by `r`, scanning left to right; leave the string unchanged
when `p` does not occur. -/
def replaceFirst (p r : List Char) : List Char → List Char
  | [] => if isPfx p [] then r else []
  | c :: t => if isPfx p (c :: t) then r ++ (c :: t).drop p.length
              else c :: replaceFirst p r t

/-- The unite-mode substitution loop (process_file.rs:341-348): fold the
single-occurrence replacement of each frame text by its wrapper over the
synthetic document, in frame order. -/
def uniteReplace (pairs : List (List Char × List Char)) (base : List Char) : List Char :=
  pairs.foldl (fun acc fw => replaceFirst fw.1 fw.2 acc) base

/-- The wrapper directive substituted for a frame in unite mode
(process_file.rs:343-347): blank the slide background and embed the
fingerprint-named artifact. -/
def uniteWrapper (hash : String) : String :=
  "\x7b\\setbeamercolor\x7bbackground canvas\x7d\x7bbg=\x7d\n\\includepdf[pages=-]\x7b"
    ++ hash ++ ".pdf\x7d\n\x7d"

/-- Environment of one `process_file` invocation: the CLI arguments that
matter, the input document, and the outcome of every effectful collaborator
call (filesystem checks and writes, compiler and pdfunite subprocesses,
symlink creation).  Frame extraction (tree-sitter collaborator or the
`FRAME_REGEX` scan over the document) is abstracted as the extracted frame
list `frames`. -/
structure Env where
  inputIsFile : Bool
  fileContent : String
  frames : List String
  correctFrameNumbers : Bool
  draft : Bool
  createDirOk : Bool
  cacheSubdir : String
  fmtExists : Bool
  preambleSpawn : Option Bool
  initialFs : List String
  writeOk : Nat → Bool
  compileOk : Nat → Bool
  pdfunite : Bool
  unite : Bool
  pdfuniteSpawn : Option Bool
  outputExists : Bool
  removeOutputOk : Bool
  uniteWriteOk : Bool
  uniteProducesPdf : Bool
  symlinkOk : Bool
  errorPdfExists : Bool
  errorWriteOk : Bool
  errorCompileProducesPdf : Bool
  errorSymlinkOk : Bool

/-- Observable outcome of one `process_file` invocation: the returned
result (or panic), the value written to the process-wide `PREVIOUS_FRAMES`
history (`none` when the invocation returns without touching it), how many
times the format compiler subprocess was spawned, the per-unit build
results (`none` when the build loop was never reached), the artifact paths
accumulated onto the `pdfunite` command, the target the output file was
symlinked to, and the synthetic unite-mode document when one was built. -/
structure ProcOut where
  result : RunResult
  history : Option (List String)
  formatSpawned : Nat
  buildResults : Option (List BuildResult)
  pdfuniteArgs : List String
  linked : Option String
  unitedTex : Option String
  deriving DecidableEq

/-- Preamble computation (process_file.rs:154-159): the text before the
first `\begin{document}`, or the fixed default document class line. -/
def preambleOf (content : String) : String :=
  match (List.range (content.data.length + 1)).find?
      (fun i => isPfx "\\begin\x7bdocument\x7d".data (content.data.drop i)) with
  | some x => (content.data.take x).asString
  | none => "\\documentclass[aspectratio=43,c,xcolor=dvipsnames]\x7bbeamer\x7d"

/-- Format cache key (process_file.rs:175-176): hex fingerprint of the
preamble, `"_"`, then the draft flag rendered as `true`/`false`. -/
def preambleFilename (preamble : String) (draft : Bool) : String :=
  md5Hex preamble ++ "_" ++ (if draft then "true" else "false")

/-- Frame-number correction term (process_file.rs:222-226): the frame index
when enabled, the constant `0` otherwise. -/
def frameIdxStr (correct : Bool) (i : Nat) : String :=
  if correct then toString i else "0"

/-- The standalone compile unit text for one frame
(process_file.rs:227-234): format reference line, preamble, document
markers, frame-number correction, frame text. -/
def compileString (fmtName preamble : String) (correct : Bool) (i : Nat) (f : String) : String :=
  "%&" ++ fmtName ++ "\n" ++ preamble ++ "\n\\begin\x7bdocument\x7d\n"
    ++ "\\addtocounter\x7bframenumber\x7d\x7b" ++ frameIdxStr correct i ++ "\x7d\n"
    ++ f ++ "\n\\end\x7bdocument\x7d\n"

/-- Artifact path for a fingerprint (process_file.rs:237):
`cache_subdir/<hash>.pdf`. -/
def pdfPath (cacheSubdir hash : String) : String :=
  cacheSubdir ++ "/" ++ hash ++ ".pdf"

/-- The per-frame `(fingerprint, compile unit)` list built by the frame
loop (process_file.rs:219-241). -/
def generatedDocs (e : Env) : List (String × String) :=
  (List.range e.frames.length).map fun i =>
    ((md5Hex (compileString (preambleFilename (preambleOf e.fileContent) e.draft)
        (preambleOf e.fileContent) e.correctFrameNumbers i (e.frames.getD i ""))),
     compileString (preambleFilename (preambleOf e.fileContent) e.draft)
        (preambleOf e.fileContent) e.correctFrameNumbers i (e.frames.getD i ""))

/-- The run-history diff (process_file.rs:244-252): walk the zip of the
current and previous frame lists, counting agreeing leading positions,
and stop at the first mismatch. -/
def firstChangedFrame : List String → List String → Nat
  | c :: cs, p :: ps => if c = p then firstChangedFrame cs ps + 1 else 0
  | _, _ => 0

/-- The diff contract as the spec words it (§4.4): the count of leading
positions where the two lists agree, stopping at the first mismatch or the
shorter length. -/
def diffSpec (current previous : List String) : Nat :=
  ((current.zip previous).takeWhile fun ab => decide (ab.1 = ab.2)).length

/-- One worker of the build loop (process_file.rs:264-302): if the
fingerprint-named artifact exists it is a cache hit; otherwise write the
temporary source and invoke the compiler, logging (not propagating) a
compiler failure; a failed temporary write silently skips the unit. -/
def buildUnit (fs : List String) (sub : String) (writeOk compileOk : Bool) (hash : String) :
    BuildResult :=
  if pdfPath sub hash ∈ fs then .cacheHit
  else if writeOk then (if compileOk then .compiled else .failed)
  else .writeSkipped

/-- All build-loop results, one per frame.  The Rust loop runs the workers
in parallel with no ordering between their cache checks; this is modelled
by every worker reading the pre-build cache state. -/
def buildResultsOf (e : Env) : List BuildResult :=
  (List.range (generatedDocs e).length).map fun i =>
    buildUnit e.initialFs e.cacheSubdir (e.writeOk i) (e.compileOk i)
      ((generatedDocs e).getD i ("", "")).1

/-- Cache state after the build loop: the initial artifacts plus one
artifact per successfully compiled unit. -/
def finalFs (e : Env) : List String :=
  e.initialFs ++ (List.range (generatedDocs e).length).filterMap fun i =>
    let p := pdfPath e.cacheSubdir ((generatedDocs e).getD i ("", "")).1
    if p ∈ e.initialFs then none
    else if e.writeOk i && e.compileOk i then some p else none

/-- The synthetic unite-mode document (process_file.rs:337-348):
`\RequirePackage{pdfpages}`, a newline, the original source, then each
frame's first occurrence replaced by its wrapper, in frame order. -/
def unitedTexOf (e : Env) : String :=
  (uniteReplace
    ((e.frames.zip (generatedDocs e)).map fun fh => (fh.1.data, (uniteWrapper fh.2.1).data))
    (("\\RequirePackage\x7bpdfpages\x7d" ++ "\n" ++ e.fileContent).data)).asString

/-- `show_error_slide` (process_file.rs:47-77): best-effort removal of the
output file, best-effort compilation of the bundled error document when its
render is absent, then — when an error render exists — a symlink whose
failure fires an `expect`, i.e. panics. -/
def showErrorSlide (e : Env) : Bool × Bool :=
  let pdfAfter := e.errorPdfExists ||
    (!e.errorPdfExists && e.errorWriteOk && e.errorCompileProducesPdf)
  if pdfAfter then (if e.errorSymlinkOk then (false, true) else (true, false))
  else (false, false)

/-- Number of format-compiler subprocess spawns for one invocation
(process_file.rs:177-217): zero on a format cache hit, one otherwise. -/
def formatSpawnCount (e : Env) : Nat :=
  if e.fmtExists then 0 else 1

/-- Artifact paths accumulated onto the `pdfunite` command in the frame
loop (process_file.rs:240), one per frame in frame order. -/
def argsOf (e : Env) : List String :=
  (generatedDocs e).map fun hc => pdfPath e.cacheSubdir hc.1

/-- Preview-mode frame selection (process_file.rs:393-395): the diff index,
normalized to 0 when it equals the frame count. -/
def selOf (e : Env) (prev : List String) : Nat :=
  if firstChangedFrame e.frames prev = (generatedDocs e).length then 0
  else firstChangedFrame e.frames prev

/-- The artifact path selected for preview linking (process_file.rs:397-398). -/
def selPdf (e : Env) (prev : List String) : String :=
  pdfPath e.cacheSubdir ((generatedDocs e).getD (selOf e prev) ("", "")).1

/-- Terminal error path through `show_error_slide`: the slide fallback runs
first; if its symlink `expect` fires, the invocation panics before the
history assignment and the `return`, otherwise the given history value is
stored and the given error returned. -/
def failWith (e : Env) (res : RunResult) (hist : Option (List String)) (sp : Nat)
    (br : Option (List BuildResult)) (args : List String) (ut : Option String) : ProcOut :=
  if (showErrorSlide e).1 then ⟨.panicked, none, sp, br, args, none, ut⟩
  else ⟨res, hist, sp, br, args, none, ut⟩

/-- Shallow embedding of `process_file` (process_file.rs:79-420) over the
collaborator environment `e` and the process-wide previous frame history
`prev`.  Control flow, mutation of `PREVIOUS_FRAMES`, `expect`-panics and
returned errors follow the source line by line; filesystem and subprocess
outcomes are read from `e`. -/
def processFile (e : Env) (prev : List String) : ProcOut :=
  if !e.inputIsFile then ⟨.err .InputFileNotExistent, none, 0, none, [], none, none⟩
  else if !e.createDirOk then ⟨.err .IoError, none, 0, none, [], none, none⟩
  else if !e.fmtExists && !(e.preambleSpawn == some true) then
    if (showErrorSlide e).1 then ⟨.panicked, none, formatSpawnCount e, none, [], none, none⟩
    else ⟨.err .CompileError, some [], formatSpawnCount e, none, [], none, none⟩
  else if e.pdfunite then
    if e.pdfuniteSpawn == some true then
      ⟨.ok, some e.frames, formatSpawnCount e, some (buildResultsOf e), argsOf e, none, none⟩
    else
      failWith e (.err .PdfUniteError) (some e.frames) (formatSpawnCount e)
        (some (buildResultsOf e)) (argsOf e) none
  else if e.unite then
    if e.outputExists && !e.removeOutputOk then
      ⟨.panicked, none, formatSpawnCount e, some (buildResultsOf e), argsOf e, none, none⟩
    else if !e.uniteWriteOk then
      ⟨.err .PdfUniteError, none, formatSpawnCount e, some (buildResultsOf e), argsOf e,
        none, some (unitedTexOf e)⟩
    else if e.uniteProducesPdf then
      if e.symlinkOk then
        ⟨.ok, some e.frames, formatSpawnCount e, some (buildResultsOf e), argsOf e,
          some (e.cacheSubdir ++ "/united.pdf"), some (unitedTexOf e)⟩
      else
        ⟨.panicked, none, formatSpawnCount e, some (buildResultsOf e), argsOf e,
          none, some (unitedTexOf e)⟩
    else
      failWith e (.err .CompileError) (some e.frames) (formatSpawnCount e)
        (some (buildResultsOf e)) (argsOf e) (some (unitedTexOf e))
  else if selOf e prev < (generatedDocs e).length then
    if e.outputExists && !e.removeOutputOk then
      ⟨.panicked, none, formatSpawnCount e, some (buildResultsOf e), argsOf e, none, none⟩
    else if selPdf e prev ∈ finalFs e then
      if e.symlinkOk then
        ⟨.ok, some e.frames, formatSpawnCount e, some (buildResultsOf e), argsOf e,
          some (selPdf e prev), none⟩
      else
        ⟨.panicked, none, formatSpawnCount e, some (buildResultsOf e), argsOf e, none, none⟩
    else
      failWith e (.err .CompileError) (some e.frames) (formatSpawnCount e)
        (some (buildResultsOf e)) (argsOf e) none
  else ⟨.ok, some e.frames, formatSpawnCount e, some (buildResultsOf e), argsOf e, none, none⟩

/-- Interleaving of gap/frame segments: the original document region
covered by unite-mode substitution, written as
`gap₀ ++ frame₀ ++ gap₁ ++ frame₁ ++ … ++ tail`.  Each list element is
`(gap, frame text, fingerprint)`. -/
def segsBase : List (List Char × List Char × String) → List Char → List Char
  | [], t => t
  | (a, f, _) :: r, t => a ++ (f ++ segsBase r t)

/-- The expected unite-mode output for the same decomposition: every frame
replaced by the wrapper directive of its fingerprint. -/
def segsOut : List (List Char × List Char × String) → List Char → List Char
  | [], t => t
  | (a, _, h) :: r, t => a ++ ((uniteWrapper h).data ++ segsOut r t)

/-- Invariant of the unite-substitution fold: with the already substituted
prefix `d`, every remaining frame's earliest occurrence in the current
string is at its own designated position (no occurrence strictly before
it). -/
def NoEarly : List Char → List (List Char × List Char × String) → List Char → Prop
  | _, [], _ => True
  | d, (a, f, h) :: r, t =>
      (∀ q, q < d.length + a.length →
        occursAtB f (d ++ segsBase ((a, f, h) :: r) t) q = false)
      ∧ NoEarly (d ++ a ++ f) r t

/-- A fully successful collaborator environment used to instantiate the
theorems below at concrete inputs. -/
def envBase : Env where
  inputIsFile := true
  fileContent := "P1\n\\begin\x7bdocument\x7d\nF1\nF2\n\\end\x7bdocument\x7d\n"
  frames := ["F1", "F2"]
  correctFrameNumbers := false
  draft := false
  createDirOk := true
  cacheSubdir := "cache"
  fmtExists := true
  preambleSpawn := some true
  initialFs := []
  writeOk := fun _ => true
  compileOk := fun _ => true
  pdfunite := false
  unite := false
  pdfuniteSpawn := some true
  outputExists := false
  removeOutputOk := true
  uniteWriteOk := true
  uniteProducesPdf := true
  symlinkOk := true
  errorPdfExists := false
  errorWriteOk := true
  errorCompileProducesPdf := true
  errorSymlinkOk := true

theorem pfx_iff (p s : List Char) : isPfx p s = true ↔ ∃ t, p ++ t = s := by
  induction p generalizing s with
  | nil =>
    constructor
    · intro _; exact ⟨s, rfl⟩
    · intro _; cases s <;> rfl
  | cons a as ih =>
    cases s with
    | nil =>
      constructor
      · intro h; exact absurd h (by simp [isPfx, List.isPrefixOf])
      · rintro ⟨t, ht⟩; exact absurd ht (by simp)
    | cons b bs =>
      constructor
      · intro h
        have h' : (a == b && as.isPrefixOf bs) = true := h
        obtain ⟨hab, hrest⟩ := Bool.and_eq_true_iff.1 h'
        obtain ⟨t, ht⟩ := (ih bs).1 hrest
        exact ⟨t, by simp [beq_iff_eq.1 hab, ht]⟩
      · rintro ⟨t, ht⟩
        have hab : a = b := by simpa using congrArg (fun l => l.headD 'x') ht
        have hrest : as ++ t = bs := by
          have := congrArg List.tail ht
          simpa using this
        show (a == b && as.isPrefixOf bs) = true
        exact Bool.and_eq_true_iff.2 ⟨beq_iff_eq.2 hab, (ih bs).2 ⟨t, hrest⟩⟩

theorem occB_bound {p s : List Char} {q : Nat} (h : occursAtB p s q = true) (hp : p ≠ []) :
    q < s.length := by
  obtain ⟨t, ht⟩ := (pfx_iff _ _).1 h
  have hlen := congrArg List.length ht
  have hpos : 0 < p.length := List.length_pos.2 hp
  simp [List.length_drop] at hlen
  omega

theorem app_eq_pfx {p t u v : List Char} (h : p ++ t = u ++ v) (hl : p.length ≤ u.length) :
    ∃ t2, p ++ t2 = u := by
  refine ⟨u.drop p.length, ?_⟩
  have h1 : p = u.take p.length := by
    have h2 := congrArg (List.take p.length) h
    rwa [List.take_left' rfl, List.take_append_of_le_length hl] at h2
  calc p ++ u.drop p.length = u.take p.length ++ u.drop p.length := by rw [← h1]
    _ = u := List.take_append_drop _ _

theorem occ_in_left {p X Y Z : List Char} {q : Nat} (h : occursAtB p (X ++ Y) q = true)
    (hb : q + p.length ≤ X.length) : occursAtB p (X ++ Z) q = true := by
  have hq : q ≤ X.length := by omega
  obtain ⟨t, ht⟩ := (pfx_iff _ _).1 h
  rw [List.drop_append_of_le_length hq] at ht
  have hl : p.length ≤ (X.drop q).length := by
    simp [List.length_drop]; omega
  obtain ⟨t2, ht2⟩ := app_eq_pfx ht hl
  unfold occursAtB
  rw [List.drop_append_of_le_length hq]
  exact (pfx_iff _ _).2 ⟨t2 ++ Z, by rw [← List.append_assoc, ht2]⟩

theorem occ_shift (p X S : List Char) (t : Nat) :
    occursAtB p (X ++ S) (X.length + t) = occursAtB p S t := by
  unfold occursAtB
  rw [List.drop_append]

theorem occ_at_self (f X R : List Char) : occursAtB f (X ++ (f ++ R)) X.length = true := by
  unfold occursAtB
  rw [List.drop_left]
  exact (pfx_iff _ _).2 ⟨R, rfl⟩

theorem sub_of_at {p W : List Char} {k : Nat} (hk : k ≤ W.length)
    (h : isPfx p (W.drop k) = true) : isSubB p W = true :=
  List.any_eq_true.2 ⟨k, List.mem_range.2 (by omega), h⟩

theorem ovl_of_sub {p W : List Char} (h : isSubB p W = true) : overlapsB p W = true := by
  simp [overlapsB, h]

theorem ovl_of_sub2 {p W : List Char} (h : isSubB W p = true) : overlapsB p W = true := by
  simp [overlapsB, h]

theorem ovl_of_dropPfx {p W : List Char} {k : Nat} (hk : k < W.length)
    (h : isPfx (W.drop k) p = true) : overlapsB p W = true := by
  have ha : ((List.range W.length).any fun k => isPfx (W.drop k) p) = true :=
    List.any_eq_true.2 ⟨k, List.mem_range.2 hk, h⟩
  simp [overlapsB, ha]

theorem ovl_of_takeSfx {p W : List Char} {k : Nat} (hk : k < W.length)
    (h : isSfx (W.take (k + 1)) p = true) : overlapsB p W = true := by
  have ha : ((List.range W.length).any fun k => isSfx (W.take (k + 1)) p) = true :=
    List.any_eq_true.2 ⟨k, List.mem_range.2 hk, h⟩
  simp [overlapsB, ha]

theorem ovl {p W : List Char} (U V : List Char) {q : Nat}
    (h : occursAtB p (U ++ (W ++ V)) q = true)
    (h1 : q < U.length + W.length) (h2 : U.length < q + p.length) :
    overlapsB p W = true := by
  obtain ⟨t, ht⟩ := (pfx_iff _ _).1 h
  by_cases hq : U.length ≤ q
  · have hk : q = U.length + (q - U.length) := by omega
    rw [hk, List.drop_append] at ht
    have hkW : q - U.length ≤ W.length := by omega
    rw [List.drop_append_of_le_length hkW] at ht
    by_cases he : q + p.length ≤ U.length + W.length
    · have hl : p.length ≤ (W.drop (q - U.length)).length := by
        simp [List.length_drop]; omega
      obtain ⟨t2, ht2⟩ := app_eq_pfx ht hl
      exact ovl_of_sub (sub_of_at hkW ((pfx_iff _ _).2 ⟨t2, ht2⟩))
    · have hl : (W.drop (q - U.length)).length ≤ p.length := by
        simp [List.length_drop]; omega
      obtain ⟨t2, ht2⟩ := app_eq_pfx ht.symm hl
      exact ovl_of_dropPfx (show q - U.length < W.length by omega) ((pfx_iff _ _).2 ⟨t2, ht2⟩)
  · have hd : U.length - q ≤ p.length := by omega
    have hqU : q ≤ U.length := by omega
    rw [List.drop_append_of_le_length hqU] at ht
    have ht3 : p.drop (U.length - q) ++ t = W ++ V := by
      have h4 := congrArg (List.drop (U.length - q)) ht
      rw [List.drop_append_of_le_length hd] at h4
      rw [List.drop_left' (by simp [List.length_drop])] at h4
      exact h4
    have hdl : (p.drop (U.length - q)).length = q + p.length - U.length := by
      simp [List.length_drop]; omega
    by_cases he : q + p.length ≤ U.length + W.length
    · have hl : (p.drop (U.length - q)).length ≤ W.length := by omega
      obtain ⟨t2, ht2⟩ := app_eq_pfx ht3 hl
      have htk : W.take (q + p.length - U.length) = p.drop (U.length - q) := by
        have h5 := congrArg (List.take (p.drop (U.length - q)).length) ht2
        rw [List.take_left' rfl] at h5
        rw [hdl] at h5
        exact h5.symm
      have hsfx : isSfx (W.take (q + p.length - U.length)) p = true := by
        unfold isSfx
        have hlen : (W.take (q + p.length - U.length)).length = q + p.length - U.length := by
          simp [List.length_take]; omega
        rw [hlen, htk]
        have : p.length - (q + p.length - U.length) = U.length - q := by omega
        rw [this]
        exact beq_self_eq_true _
      have hm1 : q + p.length - U.length - 1 < W.length := by omega
      have : q + p.length - U.length - 1 + 1 = q + p.length - U.length := by omega
      exact ovl_of_takeSfx hm1 (by rwa [this])
    · have hl : W.length ≤ (p.drop (U.length - q)).length := by omega
      obtain ⟨t2, ht2⟩ := app_eq_pfx ht3.symm hl
      exact ovl_of_sub2 (sub_of_at hd ((pfx_iff _ _).2 ⟨t2, ht2⟩))

theorem replaceFirst_pfx {p s : List Char} (r : List Char) (h : isPfx p s = true) :
    replaceFirst p r s = r ++ s.drop p.length := by
  cases s with
  | nil => simp [replaceFirst, h]
  | cons c t => simp [replaceFirst, h]

theorem replaceFirst_at (p r U V : List Char)
    (h : ∀ q, q < U.length → occursAtB p (U ++ (p ++ V)) q = false) :
    replaceFirst p r (U ++ (p ++ V)) = U ++ (r ++ V) := by
  induction U with
  | nil =>
    have hp : isPfx p (p ++ V) = true := (pfx_iff _ _).2 ⟨V, rfl⟩
    simpa [List.drop_left] using replaceFirst_pfx r hp
  | cons c U' ih =>
    have h0 : isPfx p (c :: (U' ++ (p ++ V))) = false := by
      have := h 0 (by simp)
      simpa [occursAtB] using this
    have hrec : replaceFirst p r (U' ++ (p ++ V)) = U' ++ (r ++ V) := by
      refine ih fun q hq => ?_
      have := h (q + 1) (by simp; omega)
      simpa [occursAtB, List.cons_append] using this
    show replaceFirst p r (c :: (U' ++ (p ++ V))) = c :: (U' ++ (r ++ V))
    rw [replaceFirst, if_neg (by simp [h0]), hrec]

theorem noearly_mono (r : List (List Char × List Char × String)) (t : List Char) :
    ∀ (U f w V : List Char), (∀ x ∈ r, x.2.1 ≠ []) →
    (∀ x ∈ r, overlapsB x.2.1 w = false) →
    NoEarly (U ++ (f ++ V)) r t → NoEarly (U ++ (w ++ V)) r t := by
  induction r with
  | nil => intro U f w V _ _ _; trivial
  | cons y r' ih =>
    obtain ⟨a2, f2, h2⟩ := y
    intro U f w V hne hnov h
    obtain ⟨hA, hB⟩ := h
    constructor
    · intro q hq
      cases hb : occursAtB f2 ((U ++ (w ++ V)) ++ segsBase ((a2, f2, h2) :: r') t) q with
      | false => rfl
      | true =>
        exfalso
        have hfne : f2 ≠ [] := hne (a2, f2, h2) (by simp)
        have hf2pos : 0 < f2.length := List.length_pos.2 hfne
        have hfw : overlapsB f2 w = false := hnov (a2, f2, h2) (by simp)
        have hq' : q < U.length + w.length + V.length + a2.length := by
          simp [List.length_append] at hq; omega
        have hb' : occursAtB f2
            (U ++ (w ++ (V ++ (a2 ++ (f2 ++ segsBase r' t))))) q = true := by
          have e : (U ++ (w ++ V)) ++ segsBase ((a2, f2, h2) :: r') t
              = U ++ (w ++ (V ++ (a2 ++ (f2 ++ segsBase r' t)))) := by
            simp [segsBase, List.append_assoc]
          rwa [e] at hb
        by_cases hc1 : q + f2.length ≤ U.length
        · have hocc : occursAtB f2
              (U ++ (f ++ (V ++ (a2 ++ (f2 ++ segsBase r' t))))) q = true :=
            occ_in_left hb' hc1
          have hlt : q < (U ++ (f ++ V)).length + a2.length := by
            simp [List.length_append]; omega
          have := hA q hlt
          rw [show (U ++ (f ++ V)) ++ segsBase ((a2, f2, h2) :: r') t
              = U ++ (f ++ (V ++ (a2 ++ (f2 ++ segsBase r' t)))) from by
            simp [segsBase, List.append_assoc]] at this
          rw [this] at hocc
          exact absurd hocc (by simp)
        · by_cases hc2 : U.length + w.length ≤ q
          · have hgrp : U ++ (w ++ (V ++ (a2 ++ (f2 ++ segsBase r' t))))
                = (U ++ w) ++ (V ++ (a2 ++ (f2 ++ segsBase r' t))) := by
              simp [List.append_assoc]
            rw [hgrp] at hb'
            have hqe : q = (U ++ w).length + (q - U.length - w.length) := by
              simp [List.length_append]; omega
            rw [hqe, occ_shift] at hb'
            have hocc : occursAtB f2
                ((U ++ f) ++ (V ++ (a2 ++ (f2 ++ segsBase r' t))))
                ((U ++ f).length + (q - U.length - w.length)) = true := by
              rw [occ_shift]; exact hb'
            have hlt : (U ++ f).length + (q - U.length - w.length)
                < (U ++ (f ++ V)).length + a2.length := by
              simp [List.length_append]; omega
            have := hA _ hlt
            rw [show (U ++ (f ++ V)) ++ segsBase ((a2, f2, h2) :: r') t
                = (U ++ f) ++ (V ++ (a2 ++ (f2 ++ segsBase r' t))) from by
              simp [segsBase, List.append_assoc]] at this
            rw [this] at hocc
            exact absurd hocc (by simp)
          · have hovl : overlapsB f2 w = true :=
              ovl U (V ++ (a2 ++ (f2 ++ segsBase r' t))) hb' (by omega) (by omega)
            rw [hfw] at hovl
            exact absurd hovl (by simp)
    · have e1 : (U ++ (f ++ V)) ++ a2 ++ f2 = U ++ (f ++ (V ++ (a2 ++ f2))) := by
        simp [List.append_assoc]
      rw [e1] at hB
      have hB' := ih U f w (V ++ (a2 ++ f2))
        (fun x hx => hne x (by simp [hx])) (fun x hx => hnov x (by simp [hx])) hB
      have e2 : (U ++ (w ++ V)) ++ a2 ++ f2 = U ++ (w ++ (V ++ (a2 ++ f2))) := by
        simp [List.append_assoc]
      rw [e2]
      exact hB'

theorem noearly_build (l : List (List Char × List Char × String)) (t : List Char) :
    ∀ d : List Char,
    (∀ x ∈ l, ∀ q q', occursAtB x.2.1 (d ++ segsBase l t) q = true →
      occursAtB x.2.1 (d ++ segsBase l t) q' = true → q = q') →
    NoEarly d l t := by
  induction l with
  | nil => intro d _; trivial
  | cons y r ih =>
    obtain ⟨a, f, h⟩ := y
    intro d hU
    constructor
    · intro q hq
      cases hb : occursAtB f (d ++ segsBase ((a, f, h) :: r) t) q with
      | false => rfl
      | true =>
        exfalso
        have hdes : occursAtB f (d ++ segsBase ((a, f, h) :: r) t) ((d ++ a).length) = true := by
          have e : d ++ segsBase ((a, f, h) :: r) t
              = (d ++ a) ++ (f ++ segsBase r t) := by
            simp [segsBase, List.append_assoc]
          rw [e]
          exact occ_at_self f (d ++ a) (segsBase r t)
        have := hU (a, f, h) (by simp) q (d ++ a).length hb hdes
        simp [List.length_append] at this
        omega
    · refine ih (d ++ a ++ f) fun x hx q q' hq hq' => ?_
      have e : (d ++ a ++ f) ++ segsBase r t = d ++ segsBase ((a, f, h) :: r) t := by
        simp [segsBase, List.append_assoc]
      rw [e] at hq hq'
      exact hU x (by simp [hx]) q q' hq hq'

theorem replace_fold (l : List (List Char × List Char × String)) (t : List Char) :
    ∀ d : List Char,
    (∀ x ∈ l, x.2.1 ≠ []) →
    (∀ x ∈ l, ∀ y ∈ l, overlapsB x.2.1 (uniteWrapper y.2.2).data = false) →
    NoEarly d l t →
    uniteReplace (l.map fun x => (x.2.1, (uniteWrapper x.2.2).data)) (d ++ segsBase l t)
      = d ++ segsOut l t := by
  induction l with
  | nil => intro d _ _ _; simp [uniteReplace, segsBase, segsOut]
  | cons y r ih =>
    obtain ⟨a, f, h⟩ := y
    intro d hne hnov hNE
    obtain ⟨hA, hB⟩ := hNE
    have hstep : replaceFirst f (uniteWrapper h).data (d ++ segsBase ((a, f, h) :: r) t)
        = (d ++ a) ++ ((uniteWrapper h).data ++ segsBase r t) := by
      have e : d ++ segsBase ((a, f, h) :: r) t = (d ++ a) ++ (f ++ segsBase r t) := by
        simp [segsBase, List.append_assoc]
      rw [e]
      refine replaceFirst_at f (uniteWrapper h).data (d ++ a) (segsBase r t) fun q hq => ?_
      have hq2 : q < d.length + a.length := by simpa [List.length_append] using hq
      have := hA q hq2
      rwa [show d ++ segsBase ((a, f, h) :: r) t = (d ++ a) ++ (f ++ segsBase r t) from by
        simp [segsBase, List.append_assoc]] at this
    have hNE2 : NoEarly (d ++ a ++ (uniteWrapper h).data) r t := by
      have hB' : NoEarly ((d ++ a) ++ (f ++ [])) r t := by
        rwa [show (d ++ a) ++ (f ++ []) = d ++ a ++ f from by simp]
      have := noearly_mono r t (d ++ a) f (uniteWrapper h).data []
        (fun x hx => hne x (by simp [hx])) (fun x hx => hnov x (by simp [hx]) (a, f, h) (by simp))
        hB'
      rwa [show (d ++ a) ++ ((uniteWrapper h).data ++ []) = d ++ a ++ (uniteWrapper h).data
        from by simp] at this
    have hrec := ih (d ++ a ++ (uniteWrapper h).data)
      (fun x hx => hne x (by simp [hx]))
      (fun x hx y hy => hnov x (by simp [hx]) y (by simp [hy])) hNE2
    show uniteReplace (((a, f, h) :: r).map fun x => (x.2.1, (uniteWrapper x.2.2).data))
        (d ++ segsBase ((a, f, h) :: r) t) = d ++ segsOut ((a, f, h) :: r) t
    rw [List.map_cons]
    show uniteReplace (r.map fun x => (x.2.1, (uniteWrapper x.2.2).data))
        (replaceFirst f (uniteWrapper h).data (d ++ segsBase ((a, f, h) :: r) t))
      = d ++ segsOut ((a, f, h) :: r) t
    rw [hstep]
    rw [show (d ++ a) ++ ((uniteWrapper h).data ++ segsBase r t)
        = (d ++ a ++ (uniteWrapper h).data) ++ segsBase r t from by simp [List.append_assoc]]
    rw [hrec]
    simp [segsOut, List.append_assoc]

/-- C8: In stitch (unite) mode, for every document in which each extracted
frame's text occurs exactly once in the source (uniqueness stated over the
synthetic base, and the byte-exact extracted frame text neither empty nor
overlapping a wrapper directive, per the Extractor invariant the spec
relies on), the substitution fold replaces exactly the first literal
occurrence of each frame text with the wrapper directive embedding that
frame's fingerprint-named artifact — one replacement per frame, in frame
order — and leaves all non-frame text untouched: the result is the
gap-for-gap interleaving with wrappers substituted for frames. -/
theorem c8_unite_substitution_exact (l : List (List Char × List Char × String)) (t : List Char)
    (hne : ∀ x ∈ l, x.2.1 ≠ [])
    (hnov : ∀ x ∈ l, ∀ y ∈ l, overlapsB x.2.1 (uniteWrapper y.2.2).data = false)
    (huniq : ∀ x ∈ l, ∀ q ≤ (segsBase l t).length, ∀ q' ≤ (segsBase l t).length,
      occursAtB x.2.1 (segsBase l t) q = true →
      occursAtB x.2.1 (segsBase l t) q' = true → q = q') :
    uniteReplace (l.map fun x => (x.2.1, (uniteWrapper x.2.2).data)) (segsBase l t)
      = segsOut l t := by
  have hNE : NoEarly [] l t := by
    refine noearly_build l t [] fun x hx q q' hq hq' => ?_
    have hq0 : occursAtB x.2.1 (segsBase l t) q = true := by simpa using hq
    have hq0' : occursAtB x.2.1 (segsBase l t) q' = true := by simpa using hq'
    have hb : q < (segsBase l t).length := occB_bound hq0 (hne x hx)
    have hb' : q' < (segsBase l t).length := occB_bound hq0' (hne x hx)
    exact huniq x hx q (by omega) q' (by omega) hq0 hq0'
  have := replace_fold l t [] hne hnov hNE
  simpa using this

/-- Concrete instantiation of the unite-substitution theorem: base `xAyBz`
with frames `A` and `B`. -/
theorem c8_unite_substitution_exact_witness :
    uniteReplace (([("x".data, "A".data, "h1"), ("y".data, "B".data, "h2")]
        : List (List Char × List Char × String)).map
      fun x => (x.2.1, (uniteWrapper x.2.2).data))
      (segsBase [("x".data, "A".data, "h1"), ("y".data, "B".data, "h2")] "z".data)
      = segsOut [("x".data, "A".data, "h1"), ("y".data, "B".data, "h2")] "z".data :=
  c8_unite_substitution_exact
    [("x".data, "A".data, "h1"), ("y".data, "B".data, "h2")] "z".data
    (by decide) (by decide) (by decide)

/-- C1: The run-history diff computes the length of the longest common
prefix of the current and previous frame lists under exact string
equality: it equals the spec's count of leading agreeing positions,
stopping at the first mismatch or at the shorter list's length, and in
particular takes the values 2, 2, 0, 0 on the spec's four examples. -/
theorem c1_diff_lcp :
    (∀ current previous, firstChangedFrame current previous = diffSpec current previous)
    ∧ firstChangedFrame ["A", "B", "C"] ["A", "B", "X"] = 2
    ∧ firstChangedFrame ["A", "B"] ["A", "B"] = 2
    ∧ firstChangedFrame [] [] = 0
    ∧ firstChangedFrame ["A"] [] = 0 := by
  refine ⟨?_, by decide, by decide, by decide, by decide⟩
  intro c
  induction c with
  | nil => intro p; cases p <;> simp [firstChangedFrame, diffSpec]
  | cons a as ih =>
    intro p
    cases p with
    | nil => simp [firstChangedFrame, diffSpec]
    | cons b bs =>
      by_cases hab : a = b
      · simpa [firstChangedFrame, diffSpec, hab, List.takeWhile_cons] using ih bs
      · simp [firstChangedFrame, diffSpec, hab, List.takeWhile_cons]

/-- C4: The compile-unit text is a pure function of (format id, preamble,
frame index if numbering correction is enabled, frame text); with numbering
correction disabled the frame-number term is the constant `0`, so the unit
— and therefore its fingerprint — does not depend on the frame's
position. -/
theorem c4_compile_unit_pure :
    (∀ fmtName preamble i f, compileString fmtName preamble false i f
        = "%&" ++ fmtName ++ "\n" ++ preamble ++ "\n\\begin\x7bdocument\x7d\n"
          ++ "\\addtocounter\x7bframenumber\x7d\x7b" ++ "0" ++ "\x7d\n"
          ++ f ++ "\n\\end\x7bdocument\x7d\n")
    ∧ (∀ fmtName preamble i j f,
        compileString fmtName preamble false i f = compileString fmtName preamble false j f
        ∧ md5Hex (compileString fmtName preamble false i f)
          = md5Hex (compileString fmtName preamble false j f)) := by
  constructor
  · intro fmtName preamble i f
    rfl
  · intro fmtName preamble i j f
    exact ⟨rfl, rfl⟩

theorem pfEval_noInput (e : Env) (prev : List String) (h : e.inputIsFile = false) :
    processFile e prev = ⟨.err .InputFileNotExistent, none, 0, none, [], none, none⟩ := by
  unfold processFile
  simp [h]

theorem pfEval_noDir (e : Env) (prev : List String) (h1 : e.inputIsFile = true)
    (h2 : e.createDirOk = false) :
    processFile e prev = ⟨.err .IoError, none, 0, none, [], none, none⟩ := by
  unfold processFile
  simp [h1, h2]

theorem pfEval_fmtFail (e : Env) (prev : List String) (h1 : e.inputIsFile = true)
    (h2 : e.createDirOk = true)
    (hF : (!e.fmtExists && !(e.preambleSpawn == some true)) = true) :
    processFile e prev = (if (showErrorSlide e).1
      then ⟨.panicked, none, formatSpawnCount e, none, [], none, none⟩
      else ⟨.err .CompileError, some [], formatSpawnCount e, none, [], none, none⟩) := by
  unfold processFile
  simp [h1, h2, hF]

theorem pfEval_pdfuniteOk (e : Env) (prev : List String) (h1 : e.inputIsFile = true)
    (h2 : e.createDirOk = true)
    (hF : (!e.fmtExists && !(e.preambleSpawn == some true)) = false)
    (h4 : e.pdfunite = true) (hsp : (e.pdfuniteSpawn == some true) = true) :
    processFile e prev = ⟨.ok, some e.frames, formatSpawnCount e,
      some (buildResultsOf e), argsOf e, none, none⟩ := by
  unfold processFile
  simp [h1, h2, hF, h4, hsp]

theorem pfEval_pdfuniteFail (e : Env) (prev : List String) (h1 : e.inputIsFile = true)
    (h2 : e.createDirOk = true)
    (hF : (!e.fmtExists && !(e.preambleSpawn == some true)) = false)
    (h4 : e.pdfunite = true) (hsp : (e.pdfuniteSpawn == some true) = false) :
    processFile e prev = (if (showErrorSlide e).1
      then ⟨.panicked, none, formatSpawnCount e, some (buildResultsOf e), argsOf e, none, none⟩
      else ⟨.err .PdfUniteError, some e.frames, formatSpawnCount e,
        some (buildResultsOf e), argsOf e, none, none⟩) := by
  unfold processFile failWith
  simp [h1, h2, hF, h4, hsp]

theorem pfEval_uniteRemovePanic (e : Env) (prev : List String) (h1 : e.inputIsFile = true)
    (h2 : e.createDirOk = true)
    (hF : (!e.fmtExists && !(e.preambleSpawn == some true)) = false)
    (h4 : e.pdfunite = false) (h5 : e.unite = true)
    (hro : (e.outputExists && !e.removeOutputOk) = true) :
    processFile e prev = ⟨.panicked, none, formatSpawnCount e,
      some (buildResultsOf e), argsOf e, none, none⟩ := by
  unfold processFile
  simp [h1, h2, hF, h4, h5, hro]

theorem pfEval_uniteWriteFail (e : Env) (prev : List String) (h1 : e.inputIsFile = true)
    (h2 : e.createDirOk = true)
    (hF : (!e.fmtExists && !(e.preambleSpawn == some true)) = false)
    (h4 : e.pdfunite = false) (h5 : e.unite = true)
    (hro : (e.outputExists && !e.removeOutputOk) = false) (h7 : e.uniteWriteOk = false) :
    processFile e prev = ⟨.err .PdfUniteError, none, formatSpawnCount e,
      some (buildResultsOf e), argsOf e, none, some (unitedTexOf e)⟩ := by
  unfold processFile
  simp [h1, h2, hF, h4, h5, hro, h7]

theorem pfEval_uniteCompiled (e : Env) (prev : List String) (h1 : e.inputIsFile = true)
    (h2 : e.createDirOk = true)
    (hF : (!e.fmtExists && !(e.preambleSpawn == some true)) = false)
    (h4 : e.pdfunite = false) (h5 : e.unite = true)
    (hro : (e.outputExists && !e.removeOutputOk) = false) (h7 : e.uniteWriteOk = true)
    (h8 : e.uniteProducesPdf = true) :
    processFile e prev = (if e.symlinkOk
      then ⟨.ok, some e.frames, formatSpawnCount e, some (buildResultsOf e), argsOf e,
        some (e.cacheSubdir ++ "/united.pdf"), some (unitedTexOf e)⟩
      else ⟨.panicked, none, formatSpawnCount e, some (buildResultsOf e), argsOf e,
        none, some (unitedTexOf e)⟩) := by
  unfold processFile
  simp [h1, h2, hF, h4, h5, hro, h7, h8]

theorem pfEval_uniteNoPdf (e : Env) (prev : List String) (h1 : e.inputIsFile = true)
    (h2 : e.createDirOk = true)
    (hF : (!e.fmtExists && !(e.preambleSpawn == some true)) = false)
    (h4 : e.pdfunite = false) (h5 : e.unite = true)
    (hro : (e.outputExists && !e.removeOutputOk) = false) (h7 : e.uniteWriteOk = true)
    (h8 : e.uniteProducesPdf = false) :
    processFile e prev = (if (showErrorSlide e).1
      then ⟨.panicked, none, formatSpawnCount e, some (buildResultsOf e), argsOf e,
        none, some (unitedTexOf e)⟩
      else ⟨.err .CompileError, some e.frames, formatSpawnCount e, some (buildResultsOf e),
        argsOf e, none, some (unitedTexOf e)⟩) := by
  unfold processFile failWith
  simp [h1, h2, hF, h4, h5, hro, h7, h8]

theorem pfEval_previewNoSel (e : Env) (prev : List String) (h1 : e.inputIsFile = true)
    (h2 : e.createDirOk = true)
    (hF : (!e.fmtExists && !(e.preambleSpawn == some true)) = false)
    (h4 : e.pdfunite = false) (h5 : e.unite = false)
    (hsel : ¬ selOf e prev < (generatedDocs e).length) :
    processFile e prev = ⟨.ok, some e.frames, formatSpawnCount e,
      some (buildResultsOf e), argsOf e, none, none⟩ := by
  unfold processFile
  simp [h1, h2, hF, h4, h5, hsel]

theorem pfEval_previewRemovePanic (e : Env) (prev : List String) (h1 : e.inputIsFile = true)
    (h2 : e.createDirOk = true)
    (hF : (!e.fmtExists && !(e.preambleSpawn == some true)) = false)
    (h4 : e.pdfunite = false) (h5 : e.unite = false)
    (hsel : selOf e prev < (generatedDocs e).length)
    (hro : (e.outputExists && !e.removeOutputOk) = true) :
    processFile e prev = ⟨.panicked, none, formatSpawnCount e,
      some (buildResultsOf e), argsOf e, none, none⟩ := by
  unfold processFile
  simp [h1, h2, hF, h4, h5, hsel, hro]

theorem pfEval_previewHit (e : Env) (prev : List String) (h1 : e.inputIsFile = true)
    (h2 : e.createDirOk = true)
    (hF : (!e.fmtExists && !(e.preambleSpawn == some true)) = false)
    (h4 : e.pdfunite = false) (h5 : e.unite = false)
    (hsel : selOf e prev < (generatedDocs e).length)
    (hro : (e.outputExists && !e.removeOutputOk) = false)
    (hmem : selPdf e prev ∈ finalFs e) :
    processFile e prev = (if e.symlinkOk
      then ⟨.ok, some e.frames, formatSpawnCount e, some (buildResultsOf e), argsOf e,
        some (selPdf e prev), none⟩
      else ⟨.panicked, none, formatSpawnCount e, some (buildResultsOf e), argsOf e,
        none, none⟩) := by
  unfold processFile
  simp [h1, h2, hF, h4, h5, hsel, hro, hmem]

theorem pfEval_previewMiss (e : Env) (prev : List String) (h1 : e.inputIsFile = true)
    (h2 : e.createDirOk = true)
    (hF : (!e.fmtExists && !(e.preambleSpawn == some true)) = false)
    (h4 : e.pdfunite = false) (h5 : e.unite = false)
    (hsel : selOf e prev < (generatedDocs e).length)
    (hro : (e.outputExists && !e.removeOutputOk) = false)
    (hmem : ¬ selPdf e prev ∈ finalFs e) :
    processFile e prev = (if (showErrorSlide e).1
      then ⟨.panicked, none, formatSpawnCount e, some (buildResultsOf e), argsOf e, none, none⟩
      else ⟨.err .CompileError, some e.frames, formatSpawnCount e, some (buildResultsOf e),
        argsOf e, none, none⟩) := by
  unfold processFile failWith
  simp [h1, h2, hF, h4, h5, hsel, hro, hmem]

/-- C2 is false as stated: when creating the cache directory fails
(process_file.rs:162-165), `process_file` returns `IoError` without
touching the run history, and this exit is not the input-file-missing
failure. -/
theorem c2_counterexample :
    (processFile { envBase with createDirOk := false } ["F1"]).result
        = RunResult.err FasterBeamerError.IoError
    ∧ (processFile { envBase with createDirOk := false } ["F1"]).history = none
    ∧ RunResult.err FasterBeamerError.IoError
        ≠ RunResult.err FasterBeamerError.InputFileNotExistent := by
  refine ⟨rfl, rfl, by decide⟩

/-- C2 amended: every exit of `process_file` that returns overwrites the
process-wide run history, except the input-file-missing failure, the
cache-directory-creation `IoError` (process_file.rs:162-165), and the
unite-mode failure to write the synthetic document, which returns
`PdfUniteError` without any history mutation (process_file.rs:388-391);
exits that panic (an `expect` firing) also leave the history untouched. -/
theorem c2_amended (e : Env) (prev : List String) :
    (processFile e prev).history = none ↔
      ((processFile e prev).result = RunResult.err FasterBeamerError.InputFileNotExistent
      ∨ (processFile e prev).result = RunResult.err FasterBeamerError.IoError
      ∨ (e.pdfunite = false ∧ e.unite = true ∧ e.uniteWriteOk = false
          ∧ (processFile e prev).result = RunResult.err FasterBeamerError.PdfUniteError)
      ∨ (processFile e prev).result = RunResult.panicked) := by
  cases h1 : e.inputIsFile with
  | false => simp [pfEval_noInput e prev h1]
  | true =>
  cases h2 : e.createDirOk with
  | false => simp [pfEval_noDir e prev h1 h2]
  | true =>
  cases hF : (!e.fmtExists && !(e.preambleSpawn == some true)) with
  | true =>
    cases hS : (showErrorSlide e).1 with
    | true => simp [pfEval_fmtFail e prev h1 h2 hF, hS]
    | false => simp [pfEval_fmtFail e prev h1 h2 hF, hS]
  | false =>
  cases h4 : e.pdfunite with
  | true =>
    cases hsp : (e.pdfuniteSpawn == some true) with
    | true => simp [pfEval_pdfuniteOk e prev h1 h2 hF h4 hsp]
    | false =>
      cases hS : (showErrorSlide e).1 with
      | true => simp [pfEval_pdfuniteFail e prev h1 h2 hF h4 hsp, hS]
      | false => simp [pfEval_pdfuniteFail e prev h1 h2 hF h4 hsp, hS, h4]
  | false =>
  cases h5 : e.unite with
  | true =>
    cases hro : (e.outputExists && !e.removeOutputOk) with
    | true => simp [pfEval_uniteRemovePanic e prev h1 h2 hF h4 h5 hro]
    | false =>
      cases h7 : e.uniteWriteOk with
      | false => simp [pfEval_uniteWriteFail e prev h1 h2 hF h4 h5 hro h7, h4, h5, h7]
      | true =>
        cases h8 : e.uniteProducesPdf with
        | true =>
          cases h9 : e.symlinkOk with
          | true => simp [pfEval_uniteCompiled e prev h1 h2 hF h4 h5 hro h7 h8, h9, h7]
          | false => simp [pfEval_uniteCompiled e prev h1 h2 hF h4 h5 hro h7 h8, h9]
        | false =>
          cases hS : (showErrorSlide e).1 with
          | true => simp [pfEval_uniteNoPdf e prev h1 h2 hF h4 h5 hro h7 h8, hS]
          | false => simp [pfEval_uniteNoPdf e prev h1 h2 hF h4 h5 hro h7 h8, hS, h7]
  | false =>
  by_cases hsel : selOf e prev < (generatedDocs e).length
  · cases hro : (e.outputExists && !e.removeOutputOk) with
    | true => simp [pfEval_previewRemovePanic e prev h1 h2 hF h4 h5 hsel hro]
    | false =>
      by_cases hmem : selPdf e prev ∈ finalFs e
      · cases h9 : e.symlinkOk with
        | true => simp [pfEval_previewHit e prev h1 h2 hF h4 h5 hsel hro hmem, h9]
        | false => simp [pfEval_previewHit e prev h1 h2 hF h4 h5 hsel hro hmem, h9]
      · cases hS : (showErrorSlide e).1 with
        | true => simp [pfEval_previewMiss e prev h1 h2 hF h4 h5 hsel hro hmem, hS]
        | false => simp [pfEval_previewMiss e prev h1 h2 hF h4 h5 hsel hro hmem, hS, h5]
  · simp [pfEval_previewNoSel e prev h1 h2 hF h4 h5 hsel]

theorem docsLength (e : Env) : (generatedDocs e).length = e.frames.length := by
  simp [generatedDocs]

theorem fcf_le (c p : List String) : firstChangedFrame c p ≤ c.length := by
  induction c generalizing p with
  | nil => cases p <;> simp [firstChangedFrame]
  | cons a as ih =>
    cases p with
    | nil => simp [firstChangedFrame]
    | cons b bs =>
      by_cases hab : a = b
      · simpa [firstChangedFrame, hab] using ih bs
      · simp [firstChangedFrame, hab]

theorem sel_lt (e : Env) (prev : List String) (hfr : e.frames ≠ []) :
    selOf e prev < (generatedDocs e).length := by
  have hlen : (generatedDocs e).length = e.frames.length := docsLength e
  have hpos : 0 < e.frames.length := List.length_pos.2 hfr
  have hle : firstChangedFrame e.frames prev ≤ e.frames.length := fcf_le e.frames prev
  unfold selOf
  split
  · omega
  · rename_i hne
    rw [hlen] at hne ⊢
    omega

theorem pf_projections (e : Env) (prev : List String) (h1 : e.inputIsFile = true)
    (h2 : e.createDirOk = true) :
    (processFile e prev).formatSpawned = formatSpawnCount e
    ∧ (processFile e prev).buildResults
        = (if (!e.fmtExists && !(e.preambleSpawn == some true)) = true then none
           else some (buildResultsOf e))
    ∧ (processFile e prev).pdfuniteArgs
        = (if (!e.fmtExists && !(e.preambleSpawn == some true)) = true then []
           else argsOf e) := by
  cases hF : (!e.fmtExists && !(e.preambleSpawn == some true)) with
  | true =>
    cases hS : (showErrorSlide e).1 with
    | true => simp [pfEval_fmtFail e prev h1 h2 hF, hS, hF]
    | false => simp [pfEval_fmtFail e prev h1 h2 hF, hS, hF]
  | false =>
    cases h4 : e.pdfunite with
    | true =>
      cases hsp : (e.pdfuniteSpawn == some true) with
      | true => simp [pfEval_pdfuniteOk e prev h1 h2 hF h4 hsp, hF]
      | false =>
        cases hS : (showErrorSlide e).1 with
        | true => simp [pfEval_pdfuniteFail e prev h1 h2 hF h4 hsp, hS, hF]
        | false => simp [pfEval_pdfuniteFail e prev h1 h2 hF h4 hsp, hS, hF]
    | false =>
      cases h5 : e.unite with
      | true =>
        cases hro : (e.outputExists && !e.removeOutputOk) with
        | true => simp [pfEval_uniteRemovePanic e prev h1 h2 hF h4 h5 hro, hF]
        | false =>
          cases h7 : e.uniteWriteOk with
          | false => simp [pfEval_uniteWriteFail e prev h1 h2 hF h4 h5 hro h7, hF]
          | true =>
            cases h8 : e.uniteProducesPdf with
            | true =>
              cases h9 : e.symlinkOk with
              | true => simp [pfEval_uniteCompiled e prev h1 h2 hF h4 h5 hro h7 h8, h9, hF]
              | false => simp [pfEval_uniteCompiled e prev h1 h2 hF h4 h5 hro h7 h8, h9, hF]
            | false =>
              cases hS : (showErrorSlide e).1 with
              | true => simp [pfEval_uniteNoPdf e prev h1 h2 hF h4 h5 hro h7 h8, hS, hF]
              | false => simp [pfEval_uniteNoPdf e prev h1 h2 hF h4 h5 hro h7 h8, hS, hF]
      | false =>
        by_cases hsel : selOf e prev < (generatedDocs e).length
        · cases hro : (e.outputExists && !e.removeOutputOk) with
          | true => simp [pfEval_previewRemovePanic e prev h1 h2 hF h4 h5 hsel hro, hF]
          | false =>
            by_cases hmem : selPdf e prev ∈ finalFs e
            · cases h9 : e.symlinkOk with
              | true => simp [pfEval_previewHit e prev h1 h2 hF h4 h5 hsel hro hmem, h9, hF]
              | false => simp [pfEval_previewHit e prev h1 h2 hF h4 h5 hsel hro hmem, h9, hF]
            · cases hS : (showErrorSlide e).1 with
              | true => simp [pfEval_previewMiss e prev h1 h2 hF h4 h5 hsel hro hmem, hS, hF]
              | false => simp [pfEval_previewMiss e prev h1 h2 hF h4 h5 hsel hro hmem, hS, hF]
        · simp [pfEval_previewNoSel e prev h1 h2 hF h4 h5 hsel, hF]

/-- C3: The build engine produces one result per frame (no frame skipped),
each unit is cache-checked against the artifact store and compiled exactly
when its fingerprint-named artifact is absent, a unit's outcome depends
only on its own cache status and compiler outcome (so one unit's failure
never prevents the others from being attempted), and the build results are
identical for any two previous-run histories — the diff index never skips
or short-circuits any frame's compilation. -/
theorem c3_build_exhaustive (e : Env) (hw : ∀ i, e.writeOk i = true) :
    (buildResultsOf e).length = e.frames.length
    ∧ (∀ i, ∀ hi : i < (buildResultsOf e).length,
        (buildResultsOf e).get ⟨i, hi⟩ =
          (if pdfPath e.cacheSubdir ((generatedDocs e).getD i ("", "")).1 ∈ e.initialFs
           then BuildResult.cacheHit
           else if e.compileOk i = true then BuildResult.compiled else BuildResult.failed))
    ∧ (∀ prev1 prev2, (processFile e prev1).buildResults
        = (processFile e prev2).buildResults) := by
  refine ⟨by simp [buildResultsOf, docsLength], ?_, ?_⟩
  · intro i hi
    rw [List.get_eq_getElem]
    simp [buildResultsOf, buildUnit, hw i]
  · intro prev1 prev2
    cases h1 : e.inputIsFile with
    | false => rw [pfEval_noInput e prev1 h1, pfEval_noInput e prev2 h1]
    | true =>
      cases h2 : e.createDirOk with
      | false => rw [pfEval_noDir e prev1 h1 h2, pfEval_noDir e prev2 h1 h2]
      | true =>
        rw [(pf_projections e prev1 h1 h2).2.1, (pf_projections e prev2 h1 h2).2.1]

/-- Concrete instantiation of the build-exhaustiveness theorem at a fully
successful environment. -/
theorem c3_build_exhaustive_witness :
    (∀ i, envBase.writeOk i = true)
    ∧ ((buildResultsOf envBase).length = envBase.frames.length
      ∧ (∀ i, ∀ hi : i < (buildResultsOf envBase).length,
          (buildResultsOf envBase).get ⟨i, hi⟩ =
            (if pdfPath envBase.cacheSubdir ((generatedDocs envBase).getD i ("", "")).1
                ∈ envBase.initialFs
             then BuildResult.cacheHit
             else if envBase.compileOk i = true then BuildResult.compiled
             else BuildResult.failed))
      ∧ (∀ prev1 prev2, (processFile envBase prev1).buildResults
          = (processFile envBase prev2).buildResults)) :=
  ⟨fun _ => rfl, c3_build_exhaustive envBase (fun _ => rfl)⟩

/-- C5 is false in one corner: after a format-compilation spawn failure the
error-slide fallback runs first, and when an error render exists but the
symlink to it fails, the fallback's `expect` panics, so `process_file`
aborts instead of returning `CompileError`. -/
theorem c5_counterexample :
    (processFile { envBase with fmtExists := false, preambleSpawn := none, errorPdfExists := true, errorSymlinkOk := false } []).result = RunResult.panicked
    ∧ (processFile { envBase with fmtExists := false, preambleSpawn := none, errorPdfExists := true, errorSymlinkOk := false } []).result
      ≠ RunResult.err FasterBeamerError.CompileError := by
  decide

/-- C5 amended: The format cache key is the hex fingerprint of the
preamble text concatenated with `"_"` and the draft flag; when a format
file with that name already exists next to the input, no format-compiler
subprocess is spawned; otherwise it is spawned exactly once, and — when
the error-slide fallback does not itself panic — a spawn failure or
non-zero exit makes `process_file` return `CompileError` without
retrying. -/
theorem c5_format_cache (e : Env) (prev : List String) (h1 : e.inputIsFile = true)
    (h2 : e.createDirOk = true) (hS : (showErrorSlide e).1 = false) :
    (∀ p d, preambleFilename p d = md5Hex p ++ "_" ++ (if d then "true" else "false"))
    ∧ (e.fmtExists = true → (processFile e prev).formatSpawned = 0)
    ∧ (e.fmtExists = false → (processFile e prev).formatSpawned = 1)
    ∧ (e.fmtExists = false → e.preambleSpawn ≠ some true →
        (processFile e prev).result = RunResult.err FasterBeamerError.CompileError) := by
  refine ⟨fun p d => rfl, ?_, ?_, ?_⟩
  · intro h3
    rw [(pf_projections e prev h1 h2).1]
    simp [formatSpawnCount, h3]
  · intro h3
    rw [(pf_projections e prev h1 h2).1]
    simp [formatSpawnCount, h3]
  · intro h3 h4
    have hF : (!e.fmtExists && !(e.preambleSpawn == some true)) = true := by
      simp [h3]
      exact h4
    rw [pfEval_fmtFail e prev h1 h2 hF, if_neg (by simp [hS])]

/-- Concrete instantiation of the format-cache theorem at an environment
whose format file is absent and whose format compilation exits
non-zero. -/
theorem c5_format_cache_witness :
    ({ envBase with fmtExists := false, preambleSpawn := some false } : Env).inputIsFile = true
    ∧ ({ envBase with fmtExists := false, preambleSpawn := some false } : Env).createDirOk = true
    ∧ (showErrorSlide { envBase with fmtExists := false, preambleSpawn := some false }).1 = false
    ∧ (processFile { envBase with fmtExists := false, preambleSpawn := some false } []).result
        = RunResult.err FasterBeamerError.CompileError
    ∧ (processFile { envBase with fmtExists := false, preambleSpawn := some false } []).formatSpawned
        = 1 := by
  refine ⟨rfl, rfl, by decide, ?_, ?_⟩
  · exact (c5_format_cache { envBase with fmtExists := false, preambleSpawn := some false } []
      rfl rfl (by decide)).2.2.2 rfl (by decide)
  · exact (c5_format_cache { envBase with fmtExists := false, preambleSpawn := some false } []
      rfl rfl (by decide)).2.2.1 rfl

/-- C6: In preview mode, a diff index equal to the total frame count is
normalized to 0 before selecting the artifact, so a fully unchanged
document previews the first frame; and when the frame list is empty no
output link is produced and the invocation still succeeds. -/
theorem c6_preview_normalize (e : Env) (prev : List String) (h1 : e.inputIsFile = true)
    (h2 : e.createDirOk = true)
    (hF : (!e.fmtExists && !(e.preambleSpawn == some true)) = false)
    (h4 : e.pdfunite = false) (h5 : e.unite = false) :
    (e.frames = [] → (processFile e prev).linked = none
      ∧ (processFile e prev).result = RunResult.ok)
    ∧ (firstChangedFrame e.frames prev = e.frames.length → e.frames ≠ [] →
        (e.outputExists && !e.removeOutputOk) = false →
        selPdf e prev ∈ finalFs e → e.symlinkOk = true →
        (processFile e prev).linked
            = some (pdfPath e.cacheSubdir ((generatedDocs e).getD 0 ("", "")).1)
        ∧ (processFile e prev).result = RunResult.ok) := by
  constructor
  · intro hfr
    have hsel : ¬ selOf e prev < (generatedDocs e).length := by
      have hd : (generatedDocs e).length = 0 := by simp [docsLength, hfr]
      omega
    rw [pfEval_previewNoSel e prev h1 h2 hF h4 h5 hsel]
    exact ⟨rfl, rfl⟩
  · intro hfcf hfr hro hmem h9
    have hsel0 : selOf e prev = 0 := by simp [selOf, docsLength, hfcf]
    have hsel : selOf e prev < (generatedDocs e).length := sel_lt e prev hfr
    rw [pfEval_previewHit e prev h1 h2 hF h4 h5 hsel hro hmem, if_pos h9]
    refine ⟨?_, rfl⟩
    simp [selPdf, hsel0]

set_option maxRecDepth 4000 in
/-- Concrete instantiation of the preview-normalization theorem: both
frames unchanged since the previous run, so the diff index equals the
frame count and the preview links the first frame's artifact. -/
theorem c6_preview_normalize_witness :
    firstChangedFrame envBase.frames ["F1", "F2"] = envBase.frames.length
    ∧ ((processFile envBase ["F1", "F2"]).linked
        = some (pdfPath envBase.cacheSubdir ((generatedDocs envBase).getD 0 ("", "")).1)
      ∧ (processFile envBase ["F1", "F2"]).result = RunResult.ok) :=
  ⟨by decide, (c6_preview_normalize envBase ["F1", "F2"] rfl rfl (by decide) rfl rfl).2
    (by decide) (by decide) (by decide) (by decide) rfl⟩

/-- C7 is false as stated: when removing the pre-existing output file
fails, `process_file` panics through the `expect` at
process_file.rs:400-402 instead of returning the `IoError` variant. -/
theorem c7_counterexample :
    (processFile { envBase with outputExists := true, removeOutputOk := false } []).result
        = RunResult.panicked
    ∧ ¬ (processFile { envBase with outputExists := true, removeOutputOk := false } []).result
        = RunResult.err FasterBeamerError.IoError := by
  decide

/-- C7 amended: whenever `process_file` attempts to remove the
pre-existing output file or to create the output link and the operation
fails, the invocation aborts with a panic (an `expect` firing) — in
preview mode (removal rs:400-402, link rs:406-407) and in unite mode
(removal rs:332-334, link rs:379-380) alike — and never with the
`IoError` variant, which is returned exactly for the cache-directory
creation failure; the error-slide fallback tolerates its own removal,
write and compile failures silently but panics exactly when an error
render exists (or is produced) and the symlink to it fails
(process_file.rs:74-75). -/
theorem c7_amended (e : Env) (prev : List String) :
    (e.inputIsFile = true → e.createDirOk = true →
        (!e.fmtExists && !(e.preambleSpawn == some true)) = false →
        e.pdfunite = false → e.unite = false → e.frames ≠ [] →
        (e.outputExists && !e.removeOutputOk) = true →
        (processFile e prev).result = RunResult.panicked)
    ∧ (e.inputIsFile = true → e.createDirOk = true →
        (!e.fmtExists && !(e.preambleSpawn == some true)) = false →
        e.pdfunite = false → e.unite = false → e.frames ≠ [] →
        (e.outputExists && !e.removeOutputOk) = false →
        selPdf e prev ∈ finalFs e → e.symlinkOk = false →
        (processFile e prev).result = RunResult.panicked)
    ∧ (e.inputIsFile = true → e.createDirOk = true →
        (!e.fmtExists && !(e.preambleSpawn == some true)) = false →
        e.pdfunite = false → e.unite = true →
        (e.outputExists && !e.removeOutputOk) = true →
        (processFile e prev).result = RunResult.panicked)
    ∧ (e.inputIsFile = true → e.createDirOk = true →
        (!e.fmtExists && !(e.preambleSpawn == some true)) = false →
        e.pdfunite = false → e.unite = true →
        (e.outputExists && !e.removeOutputOk) = false → e.uniteWriteOk = true →
        e.uniteProducesPdf = true → e.symlinkOk = false →
        (processFile e prev).result = RunResult.panicked)
    ∧ ((processFile e prev).result = RunResult.err FasterBeamerError.IoError ↔
        (e.inputIsFile = true ∧ e.createDirOk = false))
    ∧ ((showErrorSlide e).1 = true ↔
        ((e.errorPdfExists = true ∨ (e.errorWriteOk = true ∧ e.errorCompileProducesPdf = true))
          ∧ e.errorSymlinkOk = false)) := by
  refine ⟨?_, ?_, ?_, ?_, ?_, ?_⟩
  · intro h1 h2 hF h4 h5 hfr hro
    rw [pfEval_previewRemovePanic e prev h1 h2 hF h4 h5 (sel_lt e prev hfr) hro]
  · intro h1 h2 hF h4 h5 hfr hro hmem h9
    rw [pfEval_previewHit e prev h1 h2 hF h4 h5 (sel_lt e prev hfr) hro hmem,
        if_neg (by simp [h9])]
  · intro h1 h2 hF h4 h5 hro
    rw [pfEval_uniteRemovePanic e prev h1 h2 hF h4 h5 hro]
  · intro h1 h2 hF h4 h5 hro h7 h8 h9
    rw [pfEval_uniteCompiled e prev h1 h2 hF h4 h5 hro h7 h8, if_neg (by simp [h9])]
  · cases h1 : e.inputIsFile with
    | false => simp [pfEval_noInput e prev h1, h1]
    | true =>
      cases h2 : e.createDirOk with
      | false => simp [pfEval_noDir e prev h1 h2, h1, h2]
      | true =>
        cases hF : (!e.fmtExists && !(e.preambleSpawn == some true)) with
        | true =>
          cases hS : (showErrorSlide e).1 with
          | true => simp [pfEval_fmtFail e prev h1 h2 hF, hS, h2]
          | false => simp [pfEval_fmtFail e prev h1 h2 hF, hS, h2]
        | false =>
          cases h4 : e.pdfunite with
          | true =>
            cases hsp : (e.pdfuniteSpawn == some true) with
            | true => simp [pfEval_pdfuniteOk e prev h1 h2 hF h4 hsp, h2]
            | false =>
              cases hS : (showErrorSlide e).1 with
              | true => simp [pfEval_pdfuniteFail e prev h1 h2 hF h4 hsp, hS, h2]
              | false => simp [pfEval_pdfuniteFail e prev h1 h2 hF h4 hsp, hS, h2]
          | false =>
            cases h5 : e.unite with
            | true =>
              cases hro : (e.outputExists && !e.removeOutputOk) with
              | true => simp [pfEval_uniteRemovePanic e prev h1 h2 hF h4 h5 hro, h2]
              | false =>
                cases h7 : e.uniteWriteOk with
                | false => simp [pfEval_uniteWriteFail e prev h1 h2 hF h4 h5 hro h7, h2]
                | true =>
                  cases h8 : e.uniteProducesPdf with
                  | true =>
                    cases h9 : e.symlinkOk with
                    | true =>
                      simp [pfEval_uniteCompiled e prev h1 h2 hF h4 h5 hro h7 h8, h9, h2]
                    | false =>
                      simp [pfEval_uniteCompiled e prev h1 h2 hF h4 h5 hro h7 h8, h9, h2]
                  | false =>
                    cases hS : (showErrorSlide e).1 with
                    | true => simp [pfEval_uniteNoPdf e prev h1 h2 hF h4 h5 hro h7 h8, hS, h2]
                    | false => simp [pfEval_uniteNoPdf e prev h1 h2 hF h4 h5 hro h7 h8, hS, h2]
            | false =>
              by_cases hsel : selOf e prev < (generatedDocs e).length
              · cases hro : (e.outputExists && !e.removeOutputOk) with
                | true =>
                  simp [pfEval_previewRemovePanic e prev h1 h2 hF h4 h5 hsel hro, h2]
                | false =>
                  by_cases hmem : selPdf e prev ∈ finalFs e
                  · cases h9 : e.symlinkOk with
                    | true =>
                      simp [pfEval_previewHit e prev h1 h2 hF h4 h5 hsel hro hmem, h9, h2]
                    | false =>
                      simp [pfEval_previewHit e prev h1 h2 hF h4 h5 hsel hro hmem, h9, h2]
                  · cases hS : (showErrorSlide e).1 with
                    | true =>
                      simp [pfEval_previewMiss e prev h1 h2 hF h4 h5 hsel hro hmem, hS, h2]
                    | false =>
                      simp [pfEval_previewMiss e prev h1 h2 hF h4 h5 hsel hro hmem, hS, h2]
              · simp [pfEval_previewNoSel e prev h1 h2 hF h4 h5 hsel, h2]
  · unfold showErrorSlide
    cases hE : e.errorPdfExists <;> cases hW : e.errorWriteOk
      <;> cases hC : e.errorCompileProducesPdf <;> cases hSy : e.errorSymlinkOk <;> simp

set_option maxRecDepth 4000 in
/-- Concrete instantiation of the amended panic-behavior theorem: the
output link (symlink) fails in preview mode, and the invocation panics
rather than returning `IoError`. -/
theorem c7_amended_witness :
    (processFile { envBase with symlinkOk := false } []).result = RunResult.panicked
    ∧ ((processFile { envBase with symlinkOk := false } []).result
        = RunResult.err FasterBeamerError.IoError ↔
        (({ envBase with symlinkOk := false } : Env).inputIsFile = true
          ∧ ({ envBase with symlinkOk := false } : Env).createDirOk = false)) :=
  ⟨(c7_amended { envBase with symlinkOk := false } []).2.1 rfl rfl (by decide) rfl rfl
      (by decide) (by decide) (by decide) rfl,
   (c7_amended { envBase with symlinkOk := false } []).2.2.2.2.1⟩

/-- C9 is false as stated: the unite-mode failure to write the synthetic
document is a build/assembly-stage failure that returns `PdfUniteError`
without overwriting the run history with the current frame list
(process_file.rs:388-391). -/
theorem c9_counterexample :
    (processFile { envBase with unite := true, uniteWriteOk := false } ["OLD"]).result
        = RunResult.err FasterBeamerError.PdfUniteError
    ∧ (processFile { envBase with unite := true, uniteWriteOk := false } ["OLD"]).history = none
    ∧ (processFile { envBase with unite := true, uniteWriteOk := false } ["OLD"]).history
        ≠ some ({ envBase with unite := true, uniteWriteOk := false } : Env).frames := by
  decide

/-- C9 amended: a format-compilation failure overwrites the run history
with the empty list before returning `CompileError`; a `pdfunite`-stage
failure and a preview-mode missing-artifact failure overwrite it with the
current frame list; but the unite-mode failure to write the synthetic
document returns `PdfUniteError` without any history update (all stated
for runs in which the error-slide fallback does not panic). -/
theorem c9_amended (e : Env) (prev : List String) (h1 : e.inputIsFile = true)
    (h2 : e.createDirOk = true) :
    ((!e.fmtExists && !(e.preambleSpawn == some true)) = true → (showErrorSlide e).1 = false →
        (processFile e prev).result = RunResult.err FasterBeamerError.CompileError
        ∧ (processFile e prev).history = some [])
    ∧ ((!e.fmtExists && !(e.preambleSpawn == some true)) = false → e.pdfunite = true →
        (e.pdfuniteSpawn == some true) = false → (showErrorSlide e).1 = false →
        (processFile e prev).result = RunResult.err FasterBeamerError.PdfUniteError
        ∧ (processFile e prev).history = some e.frames)
    ∧ ((!e.fmtExists && !(e.preambleSpawn == some true)) = false → e.pdfunite = false →
        e.unite = false → selOf e prev < (generatedDocs e).length →
        (e.outputExists && !e.removeOutputOk) = false →
        ¬ selPdf e prev ∈ finalFs e → (showErrorSlide e).1 = false →
        (processFile e prev).result = RunResult.err FasterBeamerError.CompileError
        ∧ (processFile e prev).history = some e.frames)
    ∧ ((!e.fmtExists && !(e.preambleSpawn == some true)) = false → e.pdfunite = false →
        e.unite = true → (e.outputExists && !e.removeOutputOk) = false →
        e.uniteWriteOk = false →
        (processFile e prev).result = RunResult.err FasterBeamerError.PdfUniteError
        ∧ (processFile e prev).history = none) := by
  refine ⟨?_, ?_, ?_, ?_⟩
  · intro hF hS
    rw [pfEval_fmtFail e prev h1 h2 hF, if_neg (by simp [hS])]
    exact ⟨rfl, rfl⟩
  · intro hF h4 hsp hS
    rw [pfEval_pdfuniteFail e prev h1 h2 hF h4 hsp, if_neg (by simp [hS])]
    exact ⟨rfl, rfl⟩
  · intro hF h4 h5 hsel hro hmem hS
    rw [pfEval_previewMiss e prev h1 h2 hF h4 h5 hsel hro hmem, if_neg (by simp [hS])]
    exact ⟨rfl, rfl⟩
  · intro hF h4 h5 hro h7
    rw [pfEval_uniteWriteFail e prev h1 h2 hF h4 h5 hro h7]
    exact ⟨rfl, rfl⟩

/-- Concrete instantiation of the amended history theorem at a
format-compilation failure: the history is overwritten with the empty
list. -/
theorem c9_amended_witness :
    (processFile { envBase with fmtExists := false, preambleSpawn := none } []).result
        = RunResult.err FasterBeamerError.CompileError
    ∧ (processFile { envBase with fmtExists := false, preambleSpawn := none } []).history
        = some [] :=
  (c9_amended { envBase with fmtExists := false, preambleSpawn := none } [] rfl rfl).1
    (by decide) (by decide)

theorem argsOf_eq (e : Env) (hnum : e.correctFrameNumbers = false) :
    argsOf e = e.frames.map fun f => pdfPath e.cacheSubdir (md5Hex (compileString
      (preambleFilename (preambleOf e.fileContent) e.draft) (preambleOf e.fileContent)
      false 0 f)) := by
  unfold argsOf generatedDocs
  rw [hnum]
  apply List.ext_getElem
  · simp
  · intro i hi1 hi2
    have hif : i < e.frames.length := by simpa using hi2
    have hgd : e.frames.getD i "" = e.frames.get ⟨i, hif⟩ := by
      rw [List.getD_eq_getElem?_getD, List.getElem?_eq_getElem hif]
      rfl
    simp only [List.getElem_map, List.getElem_range, List.get_eq_getElem] at hgd ⊢
    rw [hgd]
    rfl

/-- C10: With frame-number correction disabled, two frames with identical
text yield identical compile units and fingerprints, hence a single shared
artifact path: the `pdfunite` command argument list is exactly the frame
list mapped through a position-independent unit path, so duplicate frame
texts contribute the same artifact path once per frame position, in frame
order. -/
theorem c10_dup_frames (e : Env) (prev : List String) (h1 : e.inputIsFile = true)
    (h2 : e.createDirOk = true)
    (hF : (!e.fmtExists && !(e.preambleSpawn == some true)) = false)
    (hnum : e.correctFrameNumbers = false) :
    (processFile e prev).pdfuniteArgs
      = e.frames.map (fun f => pdfPath e.cacheSubdir (md5Hex (compileString
          (preambleFilename (preambleOf e.fileContent) e.draft) (preambleOf e.fileContent)
          false 0 f)))
    ∧ (∀ i j, ∀ hi : i < (argsOf e).length, ∀ hj : j < (argsOf e).length,
        e.frames.getD i "" = e.frames.getD j "" →
        (argsOf e).get ⟨i, hi⟩ = (argsOf e).get ⟨j, hj⟩) := by
  have he := argsOf_eq e hnum
  constructor
  · rw [(pf_projections e prev h1 h2).2.2, if_neg (by simp [hF]), he]
  · intro i j hi hj hij
    have hi2 : i < e.frames.length := by simpa [argsOf, docsLength] using hi
    have hj2 : j < e.frames.length := by simpa [argsOf, docsLength] using hj
    have hgi : e.frames.getD i "" = e.frames.get ⟨i, hi2⟩ := by
      rw [List.getD_eq_getElem?_getD, List.getElem?_eq_getElem hi2]
      rfl
    have hgj : e.frames.getD j "" = e.frames.get ⟨j, hj2⟩ := by
      rw [List.getD_eq_getElem?_getD, List.getElem?_eq_getElem hj2]
      rfl
    rw [List.get_eq_getElem, List.get_eq_getElem, List.getElem_of_eq he hi,
        List.getElem_of_eq he hj]
    simp only [List.getElem_map]
    rw [List.get_eq_getElem] at hgi hgj
    rw [← hgi, ← hgj, hij]

/-- Concrete instantiation of the duplicate-frame theorem: two identical
frames share one artifact path, which appears at both argument
positions. -/
theorem c10_dup_frames_witness :
    (processFile { envBase with frames := ["F1", "F1"] } []).pdfuniteArgs
        = ({ envBase with frames := ["F1", "F1"] } : Env).frames.map
          (fun f => pdfPath ({ envBase with frames := ["F1", "F1"] } : Env).cacheSubdir
            (md5Hex (compileString
              (preambleFilename
                (preambleOf ({ envBase with frames := ["F1", "F1"] } : Env).fileContent)
                ({ envBase with frames := ["F1", "F1"] } : Env).draft)
              (preambleOf ({ envBase with frames := ["F1", "F1"] } : Env).fileContent)
              false 0 f)))
    ∧ (argsOf { envBase with frames := ["F1", "F1"] }).get ⟨0, by decide⟩
        = (argsOf { envBase with frames := ["F1", "F1"] }).get ⟨1, by decide⟩ :=
  ⟨(c10_dup_frames { envBase with frames := ["F1", "F1"] } [] rfl rfl (by decide) rfl).1,
   (c10_dup_frames { envBase with frames := ["F1", "F1"] } [] rfl rfl (by decide) rfl).2
     0 1 (by decide) (by decide) (by decide)⟩
